import Mathlib

/-
  Shallow embedding of the convergence-poller fragment of
  qubership-docker-integration-tests
  (library/integration_library_builtIn/PlatformLibrary.py and
  KubernetesClient.py), together with theorems checking the
  natural-language specification against it.

  Modelling conventions:
  * Kubernetes replica-count status fields are nullable non-negative
    integers, embedded as `Option Nat` (`none` = the field is unset /
    `None` in Python).
  * Python truthiness of such a field (`if x:`) is `truthy`.
  * A resource fetch `get_deployment_entity(name, namespace)` /
    `get_stateful_set(name, namespace)` is embedded as applying an
    environment function `String → DeploymentStatus` (resp.
    `StatefulSetStatus`); the namespace argument is fixed throughout a
    call and therefore folded into the environment.
  * The polling loops sample the cluster at an idealized clock: the
    k-th loop iteration happens at elapsed time `5 * k` seconds
    (`time.sleep(5)` lasts exactly 5 seconds, fetches and comparisons
    are instantaneous, `time.time()` is exact).  A time-varying cluster
    is an environment family `Nat → String → DeploymentStatus` indexed
    by elapsed seconds.  The loop embeddings return both the boolean
    result and the elapsed time at which the Python function returns.
  * `direction.lower()` is embedded as `pyLower` (the inputs of
    interest are ASCII, where Python `str.lower` agrees with
    `Char.toLower`).
  * Label dictionaries are association lists `List (String × String)`;
    a genuine Python `dict` has no duplicate keys, which appears as
    `Nodup` hypotheses on the key lists where needed.
-/

/-- Python truthiness of a nullable replica-count field: `bool(x)` is
`false` exactly when `x` is `None` or `0`. -/
def truthy : Option Nat → Bool
  | none => false
  | some n => n != 0

/-- Status block of a deployment-like resource (`deployment.status`). -/
structure DeploymentStatus where
  replicas : Option Nat
  ready_replicas : Option Nat
  available_replicas : Option Nat
  unavailable_replicas : Option Nat
deriving DecidableEq, Repr

/-- Status block of a stateful set (`stateful_set.status`). -/
structure StatefulSetStatus where
  replicas : Option Nat
  ready_replicas : Option Nat
deriving DecidableEq, Repr

/-- A deployment-like resource as listed by
`KubernetesClient.get_deployment_entities`: its name, the pod-template
labels (`spec.template.metadata.labels`) and its status. -/
structure Deployment where
  name : String
  template_labels : List (String × String)
  status : DeploymentStatus
deriving DecidableEq, Repr

/-- Python `d.get(k, dflt)` on an association-list dictionary. -/
def dictGet (d : List (String × String)) (k : String) (dflt : String) : String :=
  match d.lookup k with
  | some v => v
  | none => dflt

/-- `PlatformLibrary._do_labels_satisfy_selector(labels, selector)`:
fails fast when the selector has more pairs than the labels, otherwise
demands every selector pair to occur among the label pairs. -/
def do_labels_satisfy_selector (labels selector : List (String × String)) : Bool :=
  if selector.length > labels.length then false
  else selector.all (fun pair => labels.contains pair)

/-- `PlatformLibrary.get_inactive_deployment_entities_count`: fetches
each named deployment entity and counts those with
`not deployment_entity.status.replicas`. -/
def get_inactive_deployment_entities_count
    (env : String → DeploymentStatus) (names : List String) : Nat :=
  names.foldl
    (fun counter nm =>
      if truthy (env nm).replicas then counter else counter + 1) 0

/-- `PlatformLibrary.get_active_deployment_entities_count`: fetches each
named deployment entity and counts those with
`not unavailable_replicas and status.replicas`
(`get_deployment_entity_unavailable_replicas` returns
`deployment.status.unavailable_replicas` in both platform clients). -/
def get_active_deployment_entities_count
    (env : String → DeploymentStatus) (names : List String) : Nat :=
  names.foldl
    (fun counter nm =>
      if !truthy (env nm).unavailable_replicas && truthy (env nm).replicas
      then counter + 1 else counter) 0

/-- `KubernetesClient.get_inactive_deployment_entities_for_service`:
keeps the deployments whose pod-template label `label` equals `service`
and whose status has `replicas is None or unavailable_replicas is not
None`. -/
def get_inactive_deployment_entities_for_service
    (deployments : List Deployment) (service label : String) : List Deployment :=
  deployments.filter
    (fun dc =>
      dictGet dc.template_labels label "" == service &&
        ((dc.status.replicas).isNone || (dc.status.unavailable_replicas).isSome))

/-- `KubernetesClient.get_active_deployment_entities_for_service`:
keeps the deployments whose pod-template label `label` equals `service`
and whose status has `not unavailable_replicas` and
`available_replicas is not None`. -/
def get_active_deployment_entities_for_service
    (deployments : List Deployment) (service label : String) : List Deployment :=
  deployments.filter
    (fun d =>
      dictGet d.template_labels label "" == service &&
        !truthy d.status.unavailable_replicas &&
        (d.status.available_replicas).isSome)

/-- `PlatformLibrary.get_active_stateful_sets_count`: fetches each named
stateful set and counts those with
`status.replicas == status.ready_replicas` (Python `==` on nullable
integers, i.e. `Option` equality: `None == None` holds). -/
def get_active_stateful_sets_count
    (env : String → StatefulSetStatus) (names : List String) : Nat :=
  names.foldl
    (fun counter nm =>
      if (env nm).replicas == (env nm).ready_replicas
      then counter + 1 else counter) 0

/-- `PlatformLibrary.get_inactive_stateful_sets_count`: fetches each
named stateful set and counts those with
`not status.replicas or status.replicas != status.ready_replicas`. -/
def get_inactive_stateful_sets_count
    (env : String → StatefulSetStatus) (names : List String) : Nat :=
  names.foldl
    (fun counter nm =>
      if !truthy (env nm).replicas || (env nm).replicas != (env nm).ready_replicas
      then counter + 1 else counter) 0

/-- `PlatformLibrary.get_inactive_stateful_set_count` (deprecated alias
used by the stateful-set poller): delegates to
`get_inactive_stateful_sets_count`. -/
def get_inactive_stateful_set_count
    (env : String → StatefulSetStatus) (names : List String) : Nat :=
  get_inactive_stateful_sets_count env names

/-- Python `direction.lower()` on the ASCII direction strings:
lower-cases every character. -/
def pyLower (s : String) : String := ⟨s.data.map Char.toLower⟩

/-- A single-quote character, written via its code point. -/
def squote : String := String.singleton (Char.ofNat 39)

/-- The four explicitly rejected quoted direction values, exactly the
tuple in the source. -/
def quotedDirections : List String :=
  ["\"up\"", "\"down\"", squote ++ "up" ++ squote, squote ++ "down" ++ squote]

/-- Error message of the quoting-mistake guard. -/
def quoteErrMsg : String :=
  "set direction parameter (up or down) without quote symbols \"\""

/-- Error message for a direction outside up/down. -/
def directionErrMsg (d : String) : String :=
  "direction argument should be \"up\" or \"down\" but " ++ d ++ " is given"

/-- The `check_func` dispatch of `check_service_is_scaled`: the active
count for direction `"up"`, the inactive count otherwise. -/
def deploy_check_func (direction : String)
    (env : String → DeploymentStatus) (names : List String) : Nat :=
  if direction == "up" then get_active_deployment_entities_count env names
  else get_inactive_deployment_entities_count env names

/-- The `check_func` dispatch of `check_service_of_stateful_sets_is_scaled`:
the active count for direction `"up"`, the (deprecated alias of the)
inactive count otherwise. -/
def sset_check_func (direction : String)
    (env : String → StatefulSetStatus) (names : List String) : Nat :=
  if direction == "up" then get_active_stateful_sets_count env names
  else get_inactive_stateful_set_count env names

/-- The `while` loop of `check_service_is_scaled`, on the idealized
clock (iteration `k` runs at elapsed time `5 * k`):
`while time.time() <= timeout_start + timeout:` — when the deadline has
not passed, compare the fresh count with the requested length and
return `True` on equality, else sleep 5 seconds and retry; when the
deadline has passed, fall through to `return False`.  `count t` is the
value `check_func` returns at elapsed time `t`; the result pairs the
boolean with the elapsed time at return. -/
def scaledLoop (count : Nat → Nat) (n T : Nat) (k : Nat) : Bool × Nat :=
  if h : 5 * k ≤ T then
    if count (5 * k) = n then (true, 5 * k)
    else scaledLoop count n T (k + 1)
  else (false, 5 * k)
termination_by T / 5 + 1 - k
decreasing_by
  have hk : k ≤ T / 5 := (Nat.le_div_iff_mul_le (by norm_num)).mpr (by omega)
  omega

/-- The `while True:` loop of `check_service_of_stateful_sets_is_scaled`,
on the idealized clock: each iteration first compares the fresh count
with the requested length and returns `True` on equality, then returns
`False` if `time.time() > timeout_start + timeout`, else sleeps 5
seconds and retries. -/
def ssetScaledLoop (count : Nat → Nat) (n T : Nat) (k : Nat) : Bool × Nat :=
  if count (5 * k) = n then (true, 5 * k)
  else if h : T < 5 * k then (false, 5 * k)
  else ssetScaledLoop count n T (k + 1)
termination_by T / 5 + 1 - k
decreasing_by
  have hk : k ≤ T / 5 := (Nat.le_div_iff_mul_le (by norm_num)).mpr (by omega)
  omega

/-- `PlatformLibrary.check_service_is_scaled`, with the resource names
already in list form and the timeout in whole seconds.  `envAt t` is
the cluster's deployment statuses at elapsed time `t`.  Raised
exceptions are `Except.error` carrying the message; a normal return
carries the boolean together with the elapsed time at return. -/
def check_service_is_scaled (envAt : Nat → String → DeploymentStatus)
    (names : List String) (direction : String) (T : Nat) :
    Except String (Bool × Nat) :=
  let dir := pyLower direction
  if quotedDirections.contains dir then
    Except.error quoteErrMsg
  else if !(dir == "up" || dir == "down") then
    Except.error (directionErrMsg dir)
  else
    Except.ok (scaledLoop (fun t => deploy_check_func dir (envAt t) names)
      names.length T 0)

/-- `PlatformLibrary.check_service_of_stateful_sets_is_scaled`, embedded
exactly like `check_service_is_scaled` but over stateful-set statuses
and with the `while True:` loop shape. -/
def check_service_of_stateful_sets_is_scaled
    (envAt : Nat → String → StatefulSetStatus)
    (names : List String) (direction : String) (T : Nat) :
    Except String (Bool × Nat) :=
  let dir := pyLower direction
  if quotedDirections.contains dir then
    Except.error quoteErrMsg
  else if !(dir == "up" || dir == "down") then
    Except.error (directionErrMsg dir)
  else
    Except.ok (ssetScaledLoop (fun t => sset_check_func dir (envAt t) names)
      names.length T 0)

/-- Modelled from the spec (§4.1), for comparison with the source
predicates: a deployment-like resource is active iff
`unavailableReplicas` is zero-or-unset AND `availableReplicas` is
non-zero and not unset. -/
def spec_active_deployment (d : DeploymentStatus) : Bool :=
  !truthy d.unavailable_replicas && truthy d.available_replicas

/-- Modelled from the spec (§4.1), for comparison with the source
predicates: a deployment-like resource is inactive iff
`currentReplicas` is zero-or-unset OR `unavailableReplicas` is set and
non-zero (which is exactly truthiness of the nullable field). -/
def spec_inactive_deployment (d : DeploymentStatus) : Bool :=
  !truthy d.replicas || truthy d.unavailable_replicas

/-- Modelled from the spec (§4.1), for comparison with the source
predicate: a stateful set is active iff `currentReplicas` equals
`readyReplicas` and both are defined. -/
def spec_active_stateful_set (s : StatefulSetStatus) : Bool :=
  match s.replicas, s.ready_replicas with
  | some a, some b => a == b
  | _, _ => false

/-- Modelled from the spec (§4.2), for comparison with the two source
loops: each iteration (a) takes a fresh count, (b) returns success when
it equals the requested length, (c) returns failure when the elapsed
time exceeds the timeout, (d) otherwise sleeps 5 seconds and retries. -/
def specOrderLoop (count : Nat → Nat) (n T : Nat) (k : Nat) : Bool × Nat :=
  if count (5 * k) = n then (true, 5 * k)
  else if h : T < 5 * k then (false, 5 * k)
  else specOrderLoop count n T (k + 1)
termination_by T / 5 + 1 - k
decreasing_by
  have hk : k ≤ T / 5 := (Nat.le_div_iff_mul_le (by norm_num)).mpr (by omega)
  omega

/-
  State-passing embedding, for the frame property: the same poller
  code, with the cluster state threaded explicitly through every
  operation the Python functions perform.  The only primitives the
  pollers call on the cluster are the GET requests
  `read_namespaced_deployment` / `read_namespaced_stateful_set`
  (via `get_deployment_entity` / `get_stateful_set`), which return the
  fetched status and leave the cluster as it is; no create/patch/delete
  primitive occurs in their bodies.
-/

/-- The cluster: deployment-like and stateful-set statuses by name. -/
structure ClusterState where
  deployments : String → DeploymentStatus
  statefulSets : String → StatefulSetStatus

/-- `get_deployment_entity` as a state transformer: a GET request. -/
def get_deployment_entitySt (nm : String) (s : ClusterState) :
    DeploymentStatus × ClusterState :=
  (s.deployments nm, s)

/-- `get_stateful_set` as a state transformer: a GET request. -/
def get_stateful_setSt (nm : String) (s : ClusterState) :
    StatefulSetStatus × ClusterState :=
  (s.statefulSets nm, s)

/-- `get_active_deployment_entities_count`, state-passing. -/
def get_active_deployment_entities_countSt (names : List String)
    (s : ClusterState) : Nat × ClusterState :=
  names.foldl
    (fun acc nm =>
      let fetched := get_deployment_entitySt nm acc.2
      if !truthy fetched.1.unavailable_replicas && truthy fetched.1.replicas
      then (acc.1 + 1, fetched.2) else (acc.1, fetched.2)) (0, s)

/-- `get_inactive_deployment_entities_count`, state-passing. -/
def get_inactive_deployment_entities_countSt (names : List String)
    (s : ClusterState) : Nat × ClusterState :=
  names.foldl
    (fun acc nm =>
      let fetched := get_deployment_entitySt nm acc.2
      if truthy fetched.1.replicas then (acc.1, fetched.2)
      else (acc.1 + 1, fetched.2)) (0, s)

/-- `get_active_stateful_sets_count`, state-passing. -/
def get_active_stateful_sets_countSt (names : List String)
    (s : ClusterState) : Nat × ClusterState :=
  names.foldl
    (fun acc nm =>
      let fetched := get_stateful_setSt nm acc.2
      if fetched.1.replicas == fetched.1.ready_replicas
      then (acc.1 + 1, fetched.2) else (acc.1, fetched.2)) (0, s)

/-- `get_inactive_stateful_sets_count`, state-passing. -/
def get_inactive_stateful_sets_countSt (names : List String)
    (s : ClusterState) : Nat × ClusterState :=
  names.foldl
    (fun acc nm =>
      let fetched := get_stateful_setSt nm acc.2
      if !truthy fetched.1.replicas || fetched.1.replicas != fetched.1.ready_replicas
      then (acc.1 + 1, fetched.2) else (acc.1, fetched.2)) (0, s)

/-- The `while` loop of `check_service_is_scaled`, state-passing. -/
def scaledLoopSt (check : ClusterState → Nat × ClusterState) (n T k : Nat)
    (s : ClusterState) : Bool × ClusterState :=
  if h : 5 * k ≤ T then
    let r := check s
    if r.1 = n then (true, r.2)
    else scaledLoopSt check n T (k + 1) r.2
  else (false, s)
termination_by T / 5 + 1 - k
decreasing_by
  have hk : k ≤ T / 5 := (Nat.le_div_iff_mul_le (by norm_num)).mpr (by omega)
  omega

/-- The `while True:` loop of `check_service_of_stateful_sets_is_scaled`,
state-passing. -/
def ssetScaledLoopSt (check : ClusterState → Nat × ClusterState) (n T k : Nat)
    (s : ClusterState) : Bool × ClusterState :=
  let r := check s
  if r.1 = n then (true, r.2)
  else if h : T < 5 * k then (false, r.2)
  else ssetScaledLoopSt check n T (k + 1) r.2
termination_by T / 5 + 1 - k
decreasing_by
  have hk : k ≤ T / 5 := (Nat.le_div_iff_mul_le (by norm_num)).mpr (by omega)
  omega

/-- `check_service_is_scaled`, state-passing: the result and the
cluster state when the call returns (also on the exception paths). -/
def check_service_is_scaledSt (names : List String) (direction : String)
    (T : Nat) (s : ClusterState) : Except String Bool × ClusterState :=
  let dir := pyLower direction
  if quotedDirections.contains dir then (Except.error quoteErrMsg, s)
  else if !(dir == "up" || dir == "down") then
    (Except.error (directionErrMsg dir), s)
  else
    let check := fun st =>
      if dir == "up" then get_active_deployment_entities_countSt names st
      else get_inactive_deployment_entities_countSt names st
    let r := scaledLoopSt check names.length T 0 s
    (Except.ok r.1, r.2)

/-- `check_service_of_stateful_sets_is_scaled`, state-passing. -/
def check_service_of_stateful_sets_is_scaledSt (names : List String)
    (direction : String) (T : Nat) (s : ClusterState) :
    Except String Bool × ClusterState :=
  let dir := pyLower direction
  if quotedDirections.contains dir then (Except.error quoteErrMsg, s)
  else if !(dir == "up" || dir == "down") then
    (Except.error (directionErrMsg dir), s)
  else
    let check := fun st =>
      if dir == "up" then get_active_stateful_sets_countSt names st
      else get_inactive_stateful_sets_countSt names st
    let r := ssetScaledLoopSt check names.length T 0 s
    (Except.ok r.1, r.2)

/-
  Helper lemmas.
-/

theorem foldl_if_count {α : Type} (p : α → Bool) :
    ∀ (l : List α) (c : Nat),
      l.foldl (fun counter x => if p x then counter + 1 else counter) c
        = c + (l.filter p).length := by
  intro l
  induction l with
  | nil => intro c; simp
  | cons a t ih =>
    intro c
    by_cases h : p a = true
    · simp only [List.foldl_cons, List.filter_cons, h, if_pos, ih]
      simp
      omega
    · simp only [List.foldl_cons, List.filter_cons, h, if_neg, ih]
      simp [h]

theorem foldl_if_skip_count {α : Type} (p : α → Bool) :
    ∀ (l : List α) (c : Nat),
      l.foldl (fun counter x => if p x then counter else counter + 1) c
        = c + (l.filter (fun x => !p x)).length := by
  intro l
  induction l with
  | nil => intro c; simp
  | cons a t ih =>
    intro c
    by_cases h : p a = true
    · simp [h, ih]
    · simp only [List.foldl_cons, List.filter_cons, h, if_neg, ih]
      simp [h]
      omega

theorem filter_length_full_iff {α : Type} (p : α → Bool) (l : List α) :
    (l.filter p).length = l.length ↔ ∀ a ∈ l, p a = true := by
  constructor
  · intro h
    exact List.filter_eq_self.mp ((List.filter_sublist l).eq_of_length h)
  · intro h
    rw [List.filter_eq_self.mpr h]

theorem get_active_deployment_entities_count_eq
    (env : String → DeploymentStatus) (names : List String) :
    get_active_deployment_entities_count env names
      = (names.filter (fun nm =>
          !truthy (env nm).unavailable_replicas && truthy (env nm).replicas)).length := by
  unfold get_active_deployment_entities_count
  rw [foldl_if_count]
  omega

theorem get_inactive_deployment_entities_count_eq
    (env : String → DeploymentStatus) (names : List String) :
    get_inactive_deployment_entities_count env names
      = (names.filter (fun nm => !truthy (env nm).replicas)).length := by
  unfold get_inactive_deployment_entities_count
  rw [foldl_if_skip_count]
  omega

theorem get_active_stateful_sets_count_eq
    (env : String → StatefulSetStatus) (names : List String) :
    get_active_stateful_sets_count env names
      = (names.filter (fun nm =>
          (env nm).replicas == (env nm).ready_replicas)).length := by
  unfold get_active_stateful_sets_count
  rw [foldl_if_count]
  omega

theorem get_inactive_stateful_sets_count_eq
    (env : String → StatefulSetStatus) (names : List String) :
    get_inactive_stateful_sets_count env names
      = (names.filter (fun nm =>
          !truthy (env nm).replicas
            || (env nm).replicas != (env nm).ready_replicas)).length := by
  unfold get_inactive_stateful_sets_count
  rw [foldl_if_count]
  omega

theorem lookup_eq_some_of_mem {L : List (String × String)} {k v : String}
    (hL : (L.map Prod.fst).Nodup) (hm : (k, v) ∈ L) :
    L.lookup k = some v := by
  induction L with
  | nil => cases hm
  | cons a t ih =>
    have hnd : a.1 ∉ t.map Prod.fst ∧ (t.map Prod.fst).Nodup := by
      rw [List.map_cons, List.nodup_cons] at hL
      exact hL
    rcases List.mem_cons.mp hm with heq | hm'
    · subst heq
      simp
    · have hk : (k == a.1) = false := by
        rw [beq_eq_false_iff_ne]
        intro heq
        subst heq
        exact hnd.1 (List.mem_map.mpr ⟨(a.1, v), hm', rfl⟩)
      rw [show a = (a.1, a.2) from rfl, List.lookup_cons, hk]
      exact ih hnd.2 hm'

theorem mem_of_lookup_eq_some {L : List (String × String)} {k v : String}
    (h : L.lookup k = some v) : (k, v) ∈ L := by
  induction L with
  | nil => simp at h
  | cons a t ih =>
    rw [show a = (a.1, a.2) from rfl, List.lookup_cons] at h
    by_cases hk : (k == a.1) = true
    · rw [hk] at h
      have hkeq : k = a.1 := by simpa using hk
      have hveq : v = a.2 := by simpa using h.symm
      subst hkeq
      subst hveq
      exact List.mem_cons_self _ _
    · rw [Bool.not_eq_true] at hk
      rw [hk] at h
      exact List.mem_cons_of_mem _ (ih h)

theorem key_mem_of_lookup_eq_some {L : List (String × String)} {k v : String}
    (h : L.lookup k = some v) : k ∈ L.map Prod.fst :=
  List.mem_map.mpr ⟨(k, v), mem_of_lookup_eq_some h, rfl⟩

theorem length_le_of_all_lookup {S L : List (String × String)}
    (hS : (S.map Prod.fst).Nodup)
    (h : ∀ p ∈ S, L.lookup p.1 = some p.2) :
    S.length ≤ L.length := by
  have hsub : S.map Prod.fst ⊆ L.map Prod.fst := by
    intro k hk
    obtain ⟨p, hp, hpk⟩ := List.mem_map.mp hk
    subst hpk
    exact key_mem_of_lookup_eq_some (h p hp)
  have := (List.subperm_of_subset hS hsub).length_le
  simpa using this

theorem contains_iff_lookup {L : List (String × String)}
    (hL : (L.map Prod.fst).Nodup) (p : String × String) :
    L.contains p = true ↔ L.lookup p.1 = some p.2 := by
  rw [show L.contains p = List.elem p L from rfl, List.elem_iff]
  constructor
  · intro hm
    exact lookup_eq_some_of_mem hL (by simpa using hm)
  · intro h
    simpa using mem_of_lookup_eq_some (k := p.1) (v := p.2) h

theorem scaledLoop_of_never (count : Nat → Nat) (n T : Nat)
    (h : ∀ t, count t ≠ n) :
    ∀ k, k ≤ T / 5 + 1 → scaledLoop count n T k = (false, 5 * (T / 5 + 1)) := by
  suffices H : ∀ fuel k, T / 5 + 1 - k ≤ fuel → k ≤ T / 5 + 1 →
      scaledLoop count n T k = (false, 5 * (T / 5 + 1)) by
    exact fun k hk => H (T / 5 + 1 - k) k le_rfl hk
  intro fuel
  induction fuel with
  | zero =>
    intro k hfuel hk
    have hk' : k = T / 5 + 1 := by omega
    subst hk'
    rw [scaledLoop]
    have h5 : ¬ (5 * (T / 5 + 1) ≤ T) := by omega
    simp [h5]
  | succ m ih =>
    intro k hfuel hk
    rw [scaledLoop]
    by_cases h5 : 5 * k ≤ T
    · simp [h5, h (5 * k)]
      exact ih (k + 1) (by omega) (by omega)
    · have hk' : k = T / 5 + 1 := by omega
      subst hk'
      simp [h5]

theorem ssetScaledLoop_of_never (count : Nat → Nat) (n T : Nat)
    (h : ∀ t, count t ≠ n) :
    ∀ k, k ≤ T / 5 + 1 → ssetScaledLoop count n T k = (false, 5 * (T / 5 + 1)) := by
  suffices H : ∀ fuel k, T / 5 + 1 - k ≤ fuel → k ≤ T / 5 + 1 →
      ssetScaledLoop count n T k = (false, 5 * (T / 5 + 1)) by
    exact fun k hk => H (T / 5 + 1 - k) k le_rfl hk
  intro fuel
  induction fuel with
  | zero =>
    intro k hfuel hk
    have hk' : k = T / 5 + 1 := by omega
    subst hk'
    rw [ssetScaledLoop]
    have h5 : T < 5 * (T / 5 + 1) := by omega
    simp [h5, h (5 * (T / 5 + 1))]
  | succ m ih =>
    intro k hfuel hk
    rw [ssetScaledLoop]
    by_cases h5 : T < 5 * k
    · have hk' : k = T / 5 + 1 := by omega
      subst hk'
      simp [h5, h (5 * (T / 5 + 1))]
    · simp [h5, h (5 * k)]
      exact ih (k + 1) (by omega) (by omega)

theorem scaledLoop_zero_hit (count : Nat → Nat) (n T : Nat)
    (h : count 0 = n) : scaledLoop count n T 0 = (true, 0) := by
  rw [scaledLoop]
  simp [h]

theorem ssetScaledLoop_zero_hit (count : Nat → Nat) (n T : Nat)
    (h : count 0 = n) : ssetScaledLoop count n T 0 = (true, 0) := by
  rw [ssetScaledLoop]
  simp [h]

theorem scaledLoop_fst_iff (count : Nat → Nat) (n T : Nat) :
    ∀ k0, (scaledLoop count n T k0).1 = true
      ↔ ∃ k, k0 ≤ k ∧ 5 * k ≤ T ∧ count (5 * k) = n := by
  suffices H : ∀ fuel k0, T / 5 + 1 - k0 ≤ fuel →
      ((scaledLoop count n T k0).1 = true
        ↔ ∃ k, k0 ≤ k ∧ 5 * k ≤ T ∧ count (5 * k) = n) by
    exact fun k0 => H (T / 5 + 1 - k0) k0 le_rfl
  intro fuel
  induction fuel with
  | zero =>
    intro k0 hfuel
    rw [scaledLoop]
    have h5 : ¬ (5 * k0 ≤ T) := by omega
    rw [dif_neg h5]
    exact iff_of_false (by simp) (by rintro ⟨k, hk, hk5, -⟩; omega)
  | succ m ih =>
    intro k0 hfuel
    rw [scaledLoop]
    by_cases h5 : 5 * k0 ≤ T
    · rw [dif_pos h5]
      by_cases hc : count (5 * k0) = n
      · rw [if_pos hc]
        exact iff_of_true rfl ⟨k0, le_rfl, h5, hc⟩
      · rw [if_neg hc, ih (k0 + 1) (by omega)]
        constructor
        · rintro ⟨k, hk, hk5, hkc⟩
          exact ⟨k, by omega, hk5, hkc⟩
        · rintro ⟨k, hk, hk5, hkc⟩
          have hne : k ≠ k0 := by
            intro heq
            subst heq
            exact hc hkc
          exact ⟨k, by omega, hk5, hkc⟩
    · rw [dif_neg h5]
      exact iff_of_false (by simp) (by rintro ⟨k, hk, hk5, -⟩; omega)

theorem ssetScaledLoop_eq_specOrderLoop (count : Nat → Nat) (n T : Nat) :
    ∀ k, ssetScaledLoop count n T k = specOrderLoop count n T k := by
  suffices H : ∀ fuel k, T / 5 + 1 - k ≤ fuel →
      ssetScaledLoop count n T k = specOrderLoop count n T k by
    exact fun k => H (T / 5 + 1 - k) k le_rfl
  intro fuel
  induction fuel with
  | zero =>
    intro k hfuel
    rw [ssetScaledLoop, specOrderLoop]
    have h5 : T < 5 * k := by omega
    by_cases hc : count (5 * k) = n <;> simp [hc, h5]
  | succ m ih =>
    intro k hfuel
    rw [ssetScaledLoop, specOrderLoop]
    by_cases hc : count (5 * k) = n
    · simp [hc]
    · by_cases h5 : T < 5 * k
      · simp [hc, h5]
      · simp [hc, h5]
        exact ih (k + 1) (by omega)

theorem check_service_is_scaled_up
    (envAt : Nat → String → DeploymentStatus) (names : List String) (T : Nat) :
    check_service_is_scaled envAt names "up" T
      = Except.ok (scaledLoop
          (fun t => deploy_check_func "up" (envAt t) names) names.length T 0) := by
  have h1 : pyLower "up" = "up" := by decide
  have h2 : quotedDirections.contains "up" = false := by decide
  simp +decide [check_service_is_scaled, h1, h2]

theorem check_service_is_scaled_down
    (envAt : Nat → String → DeploymentStatus) (names : List String) (T : Nat) :
    check_service_is_scaled envAt names "down" T
      = Except.ok (scaledLoop
          (fun t => deploy_check_func "down" (envAt t) names) names.length T 0) := by
  have h1 : pyLower "down" = "down" := by decide
  have h2 : quotedDirections.contains "down" = false := by decide
  simp +decide [check_service_is_scaled, h1, h2]

theorem check_sset_is_scaled_up
    (envAt : Nat → String → StatefulSetStatus) (names : List String) (T : Nat) :
    check_service_of_stateful_sets_is_scaled envAt names "up" T
      = Except.ok (ssetScaledLoop
          (fun t => sset_check_func "up" (envAt t) names) names.length T 0) := by
  have h1 : pyLower "up" = "up" := by decide
  have h2 : quotedDirections.contains "up" = false := by decide
  simp +decide [check_service_of_stateful_sets_is_scaled, h1, h2]

theorem check_sset_is_scaled_down
    (envAt : Nat → String → StatefulSetStatus) (names : List String) (T : Nat) :
    check_service_of_stateful_sets_is_scaled envAt names "down" T
      = Except.ok (ssetScaledLoop
          (fun t => sset_check_func "down" (envAt t) names) names.length T 0) := by
  have h1 : pyLower "down" = "down" := by decide
  have h2 : quotedDirections.contains "down" = false := by decide
  simp +decide [check_service_of_stateful_sets_is_scaled, h1, h2]

theorem foldl_preserves_snd {α β γ : Type} (step : β × γ → α → β × γ)
    (hstep : ∀ acc x, (step acc x).2 = acc.2) :
    ∀ (l : List α) (acc : β × γ), (l.foldl step acc).2 = acc.2 := by
  intro l
  induction l with
  | nil => intro acc; rfl
  | cons a t ih =>
    intro acc
    rw [List.foldl_cons, ih, hstep]

theorem get_active_deployment_entities_countSt_snd (names : List String)
    (s : ClusterState) : (get_active_deployment_entities_countSt names s).2 = s :=
  foldl_preserves_snd _ (fun acc nm => by
    simp only [get_deployment_entitySt]
    split <;> rfl) names (0, s)

theorem get_inactive_deployment_entities_countSt_snd (names : List String)
    (s : ClusterState) : (get_inactive_deployment_entities_countSt names s).2 = s :=
  foldl_preserves_snd _ (fun acc nm => by
    simp only [get_deployment_entitySt]
    split <;> rfl) names (0, s)

theorem get_active_stateful_sets_countSt_snd (names : List String)
    (s : ClusterState) : (get_active_stateful_sets_countSt names s).2 = s :=
  foldl_preserves_snd _ (fun acc nm => by
    simp only [get_stateful_setSt]
    split <;> rfl) names (0, s)

theorem get_inactive_stateful_sets_countSt_snd (names : List String)
    (s : ClusterState) : (get_inactive_stateful_sets_countSt names s).2 = s :=
  foldl_preserves_snd _ (fun acc nm => by
    simp only [get_stateful_setSt]
    split <;> rfl) names (0, s)

theorem scaledLoopSt_snd (check : ClusterState → Nat × ClusterState)
    (hcheck : ∀ s, (check s).2 = s) (n T : Nat) :
    ∀ k s, (scaledLoopSt check n T k s).2 = s := by
  suffices H : ∀ fuel k s, T / 5 + 1 - k ≤ fuel →
      (scaledLoopSt check n T k s).2 = s by
    exact fun k s => H (T / 5 + 1 - k) k s le_rfl
  intro fuel
  induction fuel with
  | zero =>
    intro k s hfuel
    rw [scaledLoopSt]
    have h5 : ¬ (5 * k ≤ T) := by omega
    rw [dif_neg h5]
  | succ m ih =>
    intro k s hfuel
    rw [scaledLoopSt]
    by_cases h5 : 5 * k ≤ T
    · rw [dif_pos h5]
      by_cases hc : (check s).1 = n
      · simp only [hc, if_pos]
        exact hcheck s
      · rw [if_neg hc, ih (k + 1) (check s).2 (by omega), hcheck]
    · rw [dif_neg h5]

theorem ssetScaledLoopSt_snd (check : ClusterState → Nat × ClusterState)
    (hcheck : ∀ s, (check s).2 = s) (n T : Nat) :
    ∀ k s, (ssetScaledLoopSt check n T k s).2 = s := by
  suffices H : ∀ fuel k s, T / 5 + 1 - k ≤ fuel →
      (ssetScaledLoopSt check n T k s).2 = s by
    exact fun k s => H (T / 5 + 1 - k) k s le_rfl
  intro fuel
  induction fuel with
  | zero =>
    intro k s hfuel
    rw [ssetScaledLoopSt]
    have h5 : T < 5 * k := by omega
    by_cases hc : (check s).1 = n
    · simp only [hc, if_pos]
      exact hcheck s
    · simp only [hc, if_neg, dif_pos h5]
      exact hcheck s
  | succ m ih =>
    intro k s hfuel
    rw [ssetScaledLoopSt]
    by_cases hc : (check s).1 = n
    · simp only [hc, if_pos]
      exact hcheck s
    · by_cases h5 : T < 5 * k
      · simp only [hc, if_neg, dif_pos h5]
        exact hcheck s
      · rw [if_neg hc, dif_neg h5, ih (k + 1) (check s).2 (by omega), hcheck]

theorem check_service_is_scaled_quoted
    (envAt : Nat → String → DeploymentStatus) (names : List String)
    (T : Nat) (dir : String)
    (hq : quotedDirections.contains (pyLower dir) = true) :
    check_service_is_scaled envAt names dir T = Except.error quoteErrMsg := by
  have hm : pyLower dir ∈ quotedDirections := List.elem_iff.mp hq
  simp [check_service_is_scaled, hm]

theorem check_sset_is_scaled_quoted
    (envAt : Nat → String → StatefulSetStatus) (names : List String)
    (T : Nat) (dir : String)
    (hq : quotedDirections.contains (pyLower dir) = true) :
    check_service_of_stateful_sets_is_scaled envAt names dir T
      = Except.error quoteErrMsg := by
  have hm : pyLower dir ∈ quotedDirections := List.elem_iff.mp hq
  simp [check_service_of_stateful_sets_is_scaled, hm]

theorem check_service_is_scaled_invalid
    (envAt : Nat → String → DeploymentStatus) (names : List String)
    (T : Nat) (dir : String)
    (h1 : pyLower dir ≠ "up") (h2 : pyLower dir ≠ "down") :
    check_service_is_scaled envAt names dir T
      = (if quotedDirections.contains (pyLower dir) then Except.error quoteErrMsg
         else Except.error (directionErrMsg (pyLower dir))) := by
  by_cases hm : pyLower dir ∈ quotedDirections
  · simp [check_service_is_scaled, hm]
  · simp [check_service_is_scaled, hm, h1, h2]

theorem check_sset_is_scaled_invalid
    (envAt : Nat → String → StatefulSetStatus) (names : List String)
    (T : Nat) (dir : String)
    (h1 : pyLower dir ≠ "up") (h2 : pyLower dir ≠ "down") :
    check_service_of_stateful_sets_is_scaled envAt names dir T
      = (if quotedDirections.contains (pyLower dir) then Except.error quoteErrMsg
         else Except.error (directionErrMsg (pyLower dir))) := by
  by_cases hm : pyLower dir ∈ quotedDirections
  · simp [check_service_of_stateful_sets_is_scaled, hm]
  · simp [check_service_of_stateful_sets_is_scaled, hm, h1, h2]

/-
  Claim theorems.
-/

/-- C4: for a selector `S` and a label mapping `L` (duplicate-free key
lists, as Python dicts are), `_do_labels_satisfy_selector(L, S)` is true
iff every key of `S` maps in `L` to the same value; it is true for the
empty selector against every `L`; against empty labels it is true iff
`S` is empty; and the `len(selector) > len(labels)` short-circuit never
changes the result relative to the full pairwise subset check. -/
theorem do_labels_satisfy_selector_subset_iff
    (S L : List (String × String))
    (hS : (S.map Prod.fst).Nodup) (hL : (L.map Prod.fst).Nodup) :
    (do_labels_satisfy_selector L S = true
        ↔ ∀ p ∈ S, L.lookup p.1 = some p.2)
      ∧ do_labels_satisfy_selector L [] = true
      ∧ (do_labels_satisfy_selector [] S = true ↔ S = [])
      ∧ do_labels_satisfy_selector L S = S.all (fun p => L.contains p) := by
  have hmain : do_labels_satisfy_selector L S = true
      ↔ ∀ p ∈ S, L.lookup p.1 = some p.2 := by
    unfold do_labels_satisfy_selector
    by_cases hlen : S.length > L.length
    · rw [if_pos hlen]
      constructor
      · intro h
        simp at h
      · intro h
        exact absurd (length_le_of_all_lookup hS h) (by omega)
    · rw [if_neg hlen, List.all_eq_true]
      constructor
      · intro h p hp
        exact (contains_iff_lookup hL p).mp (h p hp)
      · intro h p hp
        exact (contains_iff_lookup hL p).mpr (h p hp)
  have hempty : do_labels_satisfy_selector L [] = true := by
    simp [do_labels_satisfy_selector]
  have hlempty : do_labels_satisfy_selector [] S = true ↔ S = [] := by
    cases S with
    | nil => simp [do_labels_satisfy_selector]
    | cons a t => simp [do_labels_satisfy_selector]
  have hshort : do_labels_satisfy_selector L S
      = S.all (fun p => L.contains p) := by
    unfold do_labels_satisfy_selector
    by_cases hlen : S.length > L.length
    · rw [if_pos hlen]
      cases hall : S.all (fun p => L.contains p) with
      | false => rfl
      | true =>
        exfalso
        have h1 : ∀ p ∈ S, L.lookup p.1 = some p.2 := by
          intro p hp
          exact (contains_iff_lookup hL p).mp (List.all_eq_true.mp hall p hp)
        exact absurd (length_le_of_all_lookup hS h1) (by omega)
    · rw [if_neg hlen]
  exact ⟨hmain, hempty, hlempty, hshort⟩

/-- Witness for C4 at concrete mappings. -/
theorem do_labels_satisfy_selector_subset_iff_witness :
    do_labels_satisfy_selector
        [("app", "kafka"), ("tier", "db")] [("app", "kafka")] = true :=
  (do_labels_satisfy_selector_subset_iff
      [("app", "kafka")] [("app", "kafka"), ("tier", "db")]
      (by decide) (by decide)).1.mpr (by decide)

/-- C3: for every direction string whose lower-cased value is not
exactly "up" or "down", both poller entry points raise a configuration
error before performing any resource fetch (the result does not depend
on the cluster environment, the names or the timeout); and for the
lower-cased quoted variants of the two values the error is the distinct
quoting-mistake message. -/
theorem scaled_direction_validation :
    (∀ dir : String, pyLower dir ≠ "up" → pyLower dir ≠ "down" →
      ∀ (envD : Nat → String → DeploymentStatus)
        (envS : Nat → String → StatefulSetStatus)
        (namesD namesS : List String) (T : Nat),
        (∃ m, check_service_is_scaled envD namesD dir T = Except.error m)
          ∧ (∃ m, check_service_of_stateful_sets_is_scaled envS namesS dir T
              = Except.error m))
      ∧ (∀ dir : String, quotedDirections.contains (pyLower dir) = true →
          ∀ (envD : Nat → String → DeploymentStatus)
            (envS : Nat → String → StatefulSetStatus)
            (namesD namesS : List String) (T : Nat),
            check_service_is_scaled envD namesD dir T = Except.error quoteErrMsg
              ∧ check_service_of_stateful_sets_is_scaled envS namesS dir T
                = Except.error quoteErrMsg)
      ∧ (∀ dir : String, pyLower dir ≠ "up" → pyLower dir ≠ "down" →
          ∀ (envD envD' : Nat → String → DeploymentStatus)
            (namesD namesD' : List String) (T T' : Nat),
            check_service_is_scaled envD namesD dir T
              = check_service_is_scaled envD' namesD' dir T')
      ∧ (∀ dir : String, pyLower dir ≠ "up" → pyLower dir ≠ "down" →
          ∀ (envS envS' : Nat → String → StatefulSetStatus)
            (namesS namesS' : List String) (T T' : Nat),
            check_service_of_stateful_sets_is_scaled envS namesS dir T
              = check_service_of_stateful_sets_is_scaled envS' namesS' dir T') := by
  refine ⟨?_, ?_, ?_, ?_⟩
  · intro dir h1 h2 envD envS namesD namesS T
    constructor
    · rw [check_service_is_scaled_invalid envD namesD T dir h1 h2]
      by_cases hc : quotedDirections.contains (pyLower dir) = true
      · exact ⟨quoteErrMsg, by rw [if_pos hc]⟩
      · exact ⟨directionErrMsg (pyLower dir), by rw [if_neg hc]⟩
    · rw [check_sset_is_scaled_invalid envS namesS T dir h1 h2]
      by_cases hc : quotedDirections.contains (pyLower dir) = true
      · exact ⟨quoteErrMsg, by rw [if_pos hc]⟩
      · exact ⟨directionErrMsg (pyLower dir), by rw [if_neg hc]⟩
  · intro dir hq envD envS namesD namesS T
    exact ⟨check_service_is_scaled_quoted envD namesD T dir hq,
      check_sset_is_scaled_quoted envS namesS T dir hq⟩
  · intro dir h1 h2 envD envD' namesD namesD' T T'
    rw [check_service_is_scaled_invalid envD namesD T dir h1 h2,
      check_service_is_scaled_invalid envD' namesD' T' dir h1 h2]
  · intro dir h1 h2 envS envS' namesS namesS' T T'
    rw [check_sset_is_scaled_invalid envS namesS T dir h1 h2,
      check_sset_is_scaled_invalid envS' namesS' T' dir h1 h2]

/-- Witness for C3: the quoted variant gets the quoting message; an
arbitrary invalid direction gives an environment-independent error. -/
theorem scaled_direction_validation_witness :
    check_service_is_scaled (fun _ _ => DeploymentStatus.mk none none none none)
        ["a"] "\"UP\"" 300 = Except.error quoteErrMsg
      ∧ check_service_of_stateful_sets_is_scaled
          (fun _ _ => StatefulSetStatus.mk none none) ["x"] "\"UP\"" 300
        = Except.error quoteErrMsg
      ∧ check_service_is_scaled (fun _ _ => DeploymentStatus.mk none none none none)
          ["a"] "Sideways" 3
        = check_service_is_scaled
            (fun _ _ => DeploymentStatus.mk (some 1) (some 1) (some 1) none)
            ["b", "c"] "Sideways" 99 := by
  have hquoted := (scaled_direction_validation.2.1 "\"UP\"" (by decide)
    (fun _ _ => DeploymentStatus.mk none none none none)
    (fun _ _ => StatefulSetStatus.mk none none) ["a"] ["x"] 300)
  have hindep := (scaled_direction_validation.2.2.1 "Sideways" (by decide) (by decide)
    (fun _ _ => DeploymentStatus.mk none none none none)
    (fun _ _ => DeploymentStatus.mk (some 1) (some 1) (some 1) none)
    ["a"] ["b", "c"] 3 99)
  exact ⟨hquoted.1, hquoted.2, hindep⟩

/-- C1 counterexample: one deployment that is never active, timeout 0:
`check_service_is_scaled` returns false at elapsed time 5 = T + 5,
which lies outside the claimed interval [T, T + 5). -/
theorem scaled_timeout_interval_cex :
    check_service_is_scaled
        (fun _ _ => DeploymentStatus.mk (some 0) none none none) ["a"] "up" 0
      = Except.ok (false, 5)
    ∧ ¬ ((5 : Nat) < 0 + 5) := by
  constructor
  · rw [check_service_is_scaled_up, scaledLoop]
    norm_num
    rw [if_neg (by decide), scaledLoop]
    norm_num
  · omega

/-- C1 (amended): for every timeout `T` and resource name sets whose
check count never equals the number of names, both pollers return the
boolean false — not an exception — at elapsed time `5 * (T / 5 + 1)`,
which lies in the interval (T, T + 5] (rather than the claimed
[T, T + 5): the upper bound is attained exactly when `T` is a multiple
of 5). -/
theorem scaled_timeout_returns_false
    (envD : Nat → String → DeploymentStatus)
    (envS : Nat → String → StatefulSetStatus)
    (namesD namesS : List String) (dir : String) (T : Nat)
    (hdir : dir = "up" ∨ dir = "down")
    (hD : ∀ t, deploy_check_func dir (envD t) namesD ≠ namesD.length)
    (hS : ∀ t, sset_check_func dir (envS t) namesS ≠ namesS.length) :
    check_service_is_scaled envD namesD dir T
        = Except.ok (false, 5 * (T / 5 + 1))
      ∧ check_service_of_stateful_sets_is_scaled envS namesS dir T
        = Except.ok (false, 5 * (T / 5 + 1))
      ∧ T < 5 * (T / 5 + 1) ∧ 5 * (T / 5 + 1) ≤ T + 5 := by
  rcases hdir with rfl | rfl
  · refine ⟨?_, ?_, by omega, by omega⟩
    · rw [check_service_is_scaled_up,
        scaledLoop_of_never _ _ _ (fun t => hD t) 0 (by omega)]
    · rw [check_sset_is_scaled_up,
        ssetScaledLoop_of_never _ _ _ (fun t => hS t) 0 (by omega)]
  · refine ⟨?_, ?_, by omega, by omega⟩
    · rw [check_service_is_scaled_down,
        scaledLoop_of_never _ _ _ (fun t => hD t) 0 (by omega)]
    · rw [check_sset_is_scaled_down,
        ssetScaledLoop_of_never _ _ _ (fun t => hS t) 0 (by omega)]

/-- Witness for C1 (amended) at a concrete never-converging cluster and
timeout 7. -/
theorem scaled_timeout_returns_false_witness :
    check_service_is_scaled
        (fun _ _ => DeploymentStatus.mk (some 0) none none none) ["a"] "up" 7
      = Except.ok (false, 10)
    ∧ check_service_of_stateful_sets_is_scaled
        (fun _ _ => StatefulSetStatus.mk (some 1) (some 0)) ["x"] "up" 7
      = Except.ok (false, 10)
    ∧ (7 : Nat) < 10 ∧ (10 : Nat) ≤ 7 + 5 := by
  have h := scaled_timeout_returns_false
    (fun _ _ => DeploymentStatus.mk (some 0) none none none)
    (fun _ _ => StatefulSetStatus.mk (some 1) (some 0))
    ["a"] ["x"] "up" 7 (Or.inl rfl)
    (fun t => by
      show deploy_check_func "up"
          (fun _ => DeploymentStatus.mk (some 0) none none none) ["a"]
        ≠ ["a"].length
      decide)
    (fun t => by
      show sset_check_func "up"
          (fun _ => StatefulSetStatus.mk (some 1) (some 0)) ["x"]
        ≠ ["x"].length
      decide)
  simpa using h

/-- C2: if at the first poll (elapsed time 0) the check count already
equals the number of requested names, both pollers return true
immediately at elapsed time 0, i.e. without ever sleeping — in
particular when every named resource already satisfies the respective
target predicate, and vacuously for the empty name list. -/
theorem scaled_first_poll_immediate :
    (∀ (envD : Nat → String → DeploymentStatus) (namesD : List String)
        (dir : String) (T : Nat), (dir = "up" ∨ dir = "down") →
        deploy_check_func dir (envD 0) namesD = namesD.length →
        check_service_is_scaled envD namesD dir T = Except.ok (true, 0))
      ∧ (∀ (envS : Nat → String → StatefulSetStatus) (namesS : List String)
          (dir : String) (T : Nat), (dir = "up" ∨ dir = "down") →
          sset_check_func dir (envS 0) namesS = namesS.length →
          check_service_of_stateful_sets_is_scaled envS namesS dir T
            = Except.ok (true, 0))
      ∧ (∀ (env : String → DeploymentStatus) (names : List String),
          (∀ nm ∈ names,
            (!truthy (env nm).unavailable_replicas
              && truthy (env nm).replicas) = true) →
          get_active_deployment_entities_count env names = names.length)
      ∧ (∀ (env : String → DeploymentStatus) (names : List String),
          (∀ nm ∈ names, truthy (env nm).replicas = false) →
          get_inactive_deployment_entities_count env names = names.length)
      ∧ (∀ (env : String → StatefulSetStatus) (names : List String),
          (∀ nm ∈ names, (env nm).replicas = (env nm).ready_replicas) →
          get_active_stateful_sets_count env names = names.length)
      ∧ (∀ (env : String → StatefulSetStatus) (names : List String),
          (∀ nm ∈ names,
            (!truthy (env nm).replicas
              || (env nm).replicas != (env nm).ready_replicas) = true) →
          get_inactive_stateful_sets_count env names = names.length)
      ∧ (∀ (envD : Nat → String → DeploymentStatus) (dir : String) (T : Nat),
          (dir = "up" ∨ dir = "down") →
          check_service_is_scaled envD [] dir T = Except.ok (true, 0))
      ∧ (∀ (envS : Nat → String → StatefulSetStatus) (dir : String) (T : Nat),
          (dir = "up" ∨ dir = "down") →
          check_service_of_stateful_sets_is_scaled envS [] dir T
            = Except.ok (true, 0)) := by
  have hD : ∀ (envD : Nat → String → DeploymentStatus) (namesD : List String)
      (dir : String) (T : Nat), (dir = "up" ∨ dir = "down") →
      deploy_check_func dir (envD 0) namesD = namesD.length →
      check_service_is_scaled envD namesD dir T = Except.ok (true, 0) := by
    intro envD namesD dir T hdir h0
    rcases hdir with rfl | rfl
    · rw [check_service_is_scaled_up, scaledLoop_zero_hit _ _ _ h0]
    · rw [check_service_is_scaled_down, scaledLoop_zero_hit _ _ _ h0]
  have hS : ∀ (envS : Nat → String → StatefulSetStatus) (namesS : List String)
      (dir : String) (T : Nat), (dir = "up" ∨ dir = "down") →
      sset_check_func dir (envS 0) namesS = namesS.length →
      check_service_of_stateful_sets_is_scaled envS namesS dir T
        = Except.ok (true, 0) := by
    intro envS namesS dir T hdir h0
    rcases hdir with rfl | rfl
    · rw [check_sset_is_scaled_up, ssetScaledLoop_zero_hit _ _ _ h0]
    · rw [check_sset_is_scaled_down, ssetScaledLoop_zero_hit _ _ _ h0]
  refine ⟨hD, hS, ?_, ?_, ?_, ?_, ?_, ?_⟩
  · intro env names h
    rw [get_active_deployment_entities_count_eq, List.filter_eq_self.mpr h]
  · intro env names h
    rw [get_inactive_deployment_entities_count_eq,
      List.filter_eq_self.mpr (fun nm hnm => by simp [h nm hnm])]
  · intro env names h
    rw [get_active_stateful_sets_count_eq,
      List.filter_eq_self.mpr (fun nm hnm => by
        rw [beq_iff_eq]
        exact h nm hnm)]
  · intro env names h
    rw [get_inactive_stateful_sets_count_eq, List.filter_eq_self.mpr h]
  · intro envD dir T hdir
    refine hD envD [] dir T hdir ?_
    rcases hdir with rfl | rfl <;> rfl
  · intro envS dir T hdir
    refine hS envS [] dir T hdir ?_
    rcases hdir with rfl | rfl <;> rfl

/-- Witness for C2: one already-active deployment, one already-ready
stateful set, and empty name lists, all returning true at elapsed 0. -/
theorem scaled_first_poll_immediate_witness :
    check_service_is_scaled
        (fun _ _ => DeploymentStatus.mk (some 1) (some 1) (some 1) none)
        ["a"] "up" 300
      = Except.ok (true, 0)
    ∧ check_service_of_stateful_sets_is_scaled
        (fun _ _ => StatefulSetStatus.mk (some 2) (some 2)) ["x"] "up" 300
      = Except.ok (true, 0)
    ∧ check_service_is_scaled
        (fun _ _ => DeploymentStatus.mk none none none none) [] "down" 300
      = Except.ok (true, 0) := by
  refine ⟨?_, ?_, ?_⟩
  · exact scaled_first_poll_immediate.1
      (fun _ _ => DeploymentStatus.mk (some 1) (some 1) (some 1) none)
      ["a"] "up" 300 (Or.inl rfl) (by decide)
  · exact scaled_first_poll_immediate.2.1
      (fun _ _ => StatefulSetStatus.mk (some 2) (some 2))
      ["x"] "up" 300 (Or.inl rfl) (by decide)
  · exact scaled_first_poll_immediate.2.2.2.2.2.2.1
      (fun _ _ => DeploymentStatus.mk none none none none)
      "down" 300 (Or.inr rfl)

/-- C5 counterexample: a deployment with `replicas = 1`,
`available_replicas = 0` (set but zero) and `unavailable_replicas`
unset is counted as active by both scale-up counting operations, yet
the claimed predicate (availableReplicas non-zero and set) rejects
it. -/
theorem active_deployment_predicate_cex :
    get_active_deployment_entities_count
        (fun _ => DeploymentStatus.mk (some 1) none (some 0) none) ["a"] = 1
      ∧ get_active_deployment_entities_for_service
          [Deployment.mk "a" [("clusterName", "svc")]
            (DeploymentStatus.mk (some 1) none (some 0) none)] "svc" "clusterName"
        = [Deployment.mk "a" [("clusterName", "svc")]
            (DeploymentStatus.mk (some 1) none (some 0) none)]
      ∧ spec_active_deployment
          (DeploymentStatus.mk (some 1) none (some 0) none) = false := by
  decide

/-- C5 (amended): the name-based scale-up count classifies a deployment
as active iff `unavailableReplicas` is zero-or-unset AND the total
`status.replicas` (not `availableReplicas`) is non-zero and set; the
service-based variant classifies it as active iff its label matches
and `unavailableReplicas` is zero-or-unset AND `availableReplicas` is
set — possibly zero. -/
theorem active_deployment_predicate_characterization :
    (∀ (env : String → DeploymentStatus) (names : List String),
        get_active_deployment_entities_count env names
          = (names.filter (fun nm =>
              !truthy (env nm).unavailable_replicas
                && truthy (env nm).replicas)).length)
      ∧ (∀ (deployments : List Deployment) (service label : String)
          (d : Deployment),
          d ∈ get_active_deployment_entities_for_service deployments service label
            ↔ d ∈ deployments
                ∧ dictGet d.template_labels label "" = service
                ∧ truthy d.status.unavailable_replicas = false
                ∧ d.status.available_replicas ≠ none) := by
  constructor
  · exact get_active_deployment_entities_count_eq
  · intro deployments service label d
    unfold get_active_deployment_entities_for_service
    rw [List.mem_filter]
    simp [Option.isSome_iff_ne_none, and_assoc]

/-- C6 counterexample: a deployment with `replicas = 2` and
`unavailable_replicas = 1` satisfies the claimed inactive predicate
(unavailableReplicas set and non-zero) but is not counted by the
name-based scale-down count; a deployment with `replicas = 0` (set)
and `unavailable_replicas` unset satisfies the claimed predicate
(currentReplicas zero) but is excluded by the service-based variant. -/
theorem inactive_deployment_predicate_cex :
    spec_inactive_deployment
        (DeploymentStatus.mk (some 2) none none (some 1)) = true
      ∧ get_inactive_deployment_entities_count
          (fun _ => DeploymentStatus.mk (some 2) none none (some 1)) ["a"] = 0
      ∧ spec_inactive_deployment
          (DeploymentStatus.mk (some 0) none none none) = true
      ∧ get_inactive_deployment_entities_for_service
          [Deployment.mk "b" [("clusterName", "svc")]
            (DeploymentStatus.mk (some 0) none none none)] "svc" "clusterName"
        = [] := by
  decide

/-- C6 (amended): the name-based scale-down count classifies a
deployment as inactive iff the total `status.replicas` is zero-or-unset
(ignoring `unavailableReplicas` entirely); the service-based variant
classifies it as inactive iff its label matches and `status.replicas`
is unset (`None`, a set zero does not qualify) OR
`unavailable_replicas` is set — regardless of its value. -/
theorem inactive_deployment_predicate_characterization :
    (∀ (env : String → DeploymentStatus) (names : List String),
        get_inactive_deployment_entities_count env names
          = (names.filter (fun nm => !truthy (env nm).replicas)).length)
      ∧ (∀ (deployments : List Deployment) (service label : String)
          (d : Deployment),
          d ∈ get_inactive_deployment_entities_for_service deployments service label
            ↔ d ∈ deployments
                ∧ dictGet d.template_labels label "" = service
                ∧ (d.status.replicas = none
                    ∨ d.status.unavailable_replicas ≠ none)) := by
  constructor
  · exact get_inactive_deployment_entities_count_eq
  · intro deployments service label d
    unfold get_inactive_deployment_entities_for_service
    rw [List.mem_filter]
    simp [Option.isSome_iff_ne_none, Option.isNone_iff_eq_none, and_assoc]

/-- C7 counterexample: a stateful set with both `replicas` and
`ready_replicas` unset is counted as active (`None == None` holds in
Python), while the claimed predicate demands both fields defined. -/
theorem active_stateful_set_predicate_cex :
    get_active_stateful_sets_count
        (fun _ => StatefulSetStatus.mk none none) ["x"] = 1
      ∧ spec_active_stateful_set (StatefulSetStatus.mk none none) = false := by
  decide

/-- C7 (amended): `get_active_stateful_sets_count` counts a stateful
set as active iff `status.replicas` equals `status.ready_replicas` as
nullable values: either both are defined and equal, or both are
unset. -/
theorem active_stateful_set_predicate_characterization :
    (∀ (env : String → StatefulSetStatus) (names : List String),
        get_active_stateful_sets_count env names
          = (names.filter (fun nm =>
              (env nm).replicas == (env nm).ready_replicas)).length)
      ∧ (∀ s : StatefulSetStatus,
          ((s.replicas == s.ready_replicas) = true
            ↔ ((∃ k, s.replicas = some k ∧ s.ready_replicas = some k)
                ∨ (s.replicas = none ∧ s.ready_replicas = none)))) := by
  constructor
  · exact get_active_stateful_sets_count_eq
  · intro s
    rw [beq_iff_eq]
    cases hr : s.replicas with
    | none =>
      cases hd : s.ready_replicas with
      | none => simp
      | some b => simp
    | some a =>
      cases hd : s.ready_replicas with
      | none => simp
      | some b =>
        simp
        exact eq_comm

/-- C8 counterexample: with a count that misses at elapsed 0 and hits
at elapsed 5, and timeout 0, the deployment poller loop returns false
(its `while` condition checks the deadline at the top of the
iteration, before any fresh count), while a loop following the claimed
order — count first, timeout after — returns true at the same input. -/
theorem poll_loop_order_cex :
    scaledLoop (fun t => if t = 0 then 0 else 1) 1 0 0 = (false, 5)
      ∧ specOrderLoop (fun t => if t = 0 then 0 else 1) 1 0 0 = (true, 5) := by
  constructor
  · rw [scaledLoop]
    norm_num
    rw [scaledLoop]
    norm_num
  · rw [specOrderLoop]
    norm_num
    rw [specOrderLoop]
    norm_num

/-- C8 (amended): the stateful-set poller loop performs its steps in
exactly the claimed order (it coincides with the spec-order loop on
every input), but the deployment poller loop checks the deadline at the
top of each iteration, before taking a fresh count: it returns true iff
some poll at an elapsed time `5 * k ≤ T` observes convergence, and on
deadline expiry it returns false without a final count. -/
theorem poll_loop_order_characterization :
    (∀ (count : Nat → Nat) (n T k : Nat),
        ssetScaledLoop count n T k = specOrderLoop count n T k)
      ∧ (∀ (count : Nat → Nat) (n T : Nat),
          ((scaledLoop count n T 0).1 = true
            ↔ ∃ k, 5 * k ≤ T ∧ count (5 * k) = n)) := by
  constructor
  · exact fun count n T k => ssetScaledLoop_eq_specOrderLoop count n T k
  · intro count n T
    rw [scaledLoop_fst_iff]
    constructor
    · rintro ⟨k, -, hk5, hkc⟩
      exact ⟨k, hk5, hkc⟩
    · rintro ⟨k, hk5, hkc⟩
      exact ⟨k, Nat.zero_le k, hk5, hkc⟩

/-- C9: both pollers only read the cluster: in the state-passing
embedding the cluster state after either call equals the state before
it, for every name list, direction string, timeout and initial
state, on the success, failure and exception paths alike. -/
theorem poller_preserves_cluster_state (names : List String) (dir : String)
    (T : Nat) (s : ClusterState) :
    (check_service_is_scaledSt names dir T s).2 = s
      ∧ (check_service_of_stateful_sets_is_scaledSt names dir T s).2 = s := by
  constructor
  · unfold check_service_is_scaledSt
    by_cases hc : quotedDirections.contains (pyLower dir) = true
    · have hmem : pyLower dir ∈ quotedDirections := List.elem_iff.mp hc
      simp [hmem]
    · by_cases hv : ((pyLower dir == "up") || (pyLower dir == "down")) = true
      · simp only [hc, Bool.false_eq_true, if_false, hv, Bool.not_true, if_true]
        refine scaledLoopSt_snd _ ?_ names.length T 0 s
        intro st
        split
        · exact get_active_deployment_entities_countSt_snd names st
        · exact get_inactive_deployment_entities_countSt_snd names st
      · simp only [hc, hv]
        split <;> rfl
  · unfold check_service_of_stateful_sets_is_scaledSt
    by_cases hc : quotedDirections.contains (pyLower dir) = true
    · have hmem : pyLower dir ∈ quotedDirections := List.elem_iff.mp hc
      simp [hmem]
    · by_cases hv : ((pyLower dir == "up") || (pyLower dir == "down")) = true
      · simp only [hc, Bool.false_eq_true, if_false, hv, Bool.not_true, if_true]
        refine ssetScaledLoopSt_snd _ ?_ names.length T 0 s
        intro st
        split
        · exact get_active_stateful_sets_countSt_snd names st
        · exact get_inactive_stateful_sets_countSt_snd names st
      · simp only [hc, hv]
        split <;> rfl

/-- C10: a stateful set whose `replicas` is zero-or-unset and equal to
its `ready_replicas` is counted by both the active and the inactive
count, so a fully scaled-down name list converges immediately for
direction "up" as well as for direction "down". -/
theorem stateful_scaled_down_counts_both
    (env : String → StatefulSetStatus) (names : List String) (T : Nat)
    (h : ∀ nm ∈ names, truthy (env nm).replicas = false
        ∧ (env nm).replicas = (env nm).ready_replicas) :
    get_active_stateful_sets_count env names = names.length
      ∧ get_inactive_stateful_sets_count env names = names.length
      ∧ check_service_of_stateful_sets_is_scaled (fun _ => env) names "up" T
          = Except.ok (true, 0)
      ∧ check_service_of_stateful_sets_is_scaled (fun _ => env) names "down" T
          = Except.ok (true, 0) := by
  have hact : get_active_stateful_sets_count env names = names.length := by
    rw [get_active_stateful_sets_count_eq,
      List.filter_eq_self.mpr (fun nm hnm => by
        rw [beq_iff_eq]
        exact (h nm hnm).2)]
  have hinact : get_inactive_stateful_sets_count env names = names.length := by
    rw [get_inactive_stateful_sets_count_eq,
      List.filter_eq_self.mpr (fun nm hnm => by simp [(h nm hnm).1])]
  refine ⟨hact, hinact, ?_, ?_⟩
  · rw [check_sset_is_scaled_up, ssetScaledLoop_zero_hit]
    show sset_check_func "up" env names = names.length
    simpa [sset_check_func] using hact
  · rw [check_sset_is_scaled_down, ssetScaledLoop_zero_hit]
    show sset_check_func "down" env names = names.length
    simpa [sset_check_func, get_inactive_stateful_set_count] using hinact

/-- Witness for C10: a single stateful set with `replicas = 0` and
`ready_replicas = 0`. -/
theorem stateful_scaled_down_counts_both_witness :
    get_active_stateful_sets_count
        (fun _ => StatefulSetStatus.mk (some 0) (some 0)) ["x"] = 1
      ∧ get_inactive_stateful_sets_count
          (fun _ => StatefulSetStatus.mk (some 0) (some 0)) ["x"] = 1
      ∧ check_service_of_stateful_sets_is_scaled
          (fun _ _ => StatefulSetStatus.mk (some 0) (some 0)) ["x"] "up" 300
        = Except.ok (true, 0)
      ∧ check_service_of_stateful_sets_is_scaled
          (fun _ _ => StatefulSetStatus.mk (some 0) (some 0)) ["x"] "down" 300
        = Except.ok (true, 0) := by
  have h := stateful_scaled_down_counts_both
    (fun _ => StatefulSetStatus.mk (some 0) (some 0)) ["x"] 300 (by decide)
  simpa using h
